import Mathlib

/-!
Verification of the IBGE client module (`src/ibge/mod.rs`) of brasilapi-rs.

The module is a typed HTTP client: it builds URLs for three endpoints,
performs a GET, routes the raw result through a shared error mapper, and
deserializes the JSON body into domain records.  We shallowly embed it:

* Domain records (`Municipality`, `State`, `StateRegion`) become structures
  with the same fields and the same read-only accessors.
* `MunicipalitiesProvider` becomes an inductive type with its
  `to_string` wire-token mapping, and `Vec::join(",")` becomes the
  recursive `joinTokens`.
* The network is a parameter of type `String → HttpResult` mapping the
  request URL to either a response (status and body, as `reqwest` would
  deliver) or a transport failure; the client is a pure function of it.
* `serde_json::from_str` is an external-crate call and is passed in as a
  parameter `String → Option α`; `None` models a parse failure.
* `.unwrap()` on a failed parse aborts the call, modelled by the
  `CallResult.panicked` constructor, distinct from `ok` and `err`.
-/

namespace BrasilApi

/-- Municipality record (`struct Municipality`): fields `nome`, `codigo_ibge`. -/
structure Municipality where
  nome : String
  codigo_ibge : String
deriving DecidableEq, Repr

/-- `Municipality::get_name` returns `&self.nome`. -/
def Municipality.get_name (m : Municipality) : String := m.nome

/-- `Municipality::get_ibge_code` returns `&self.codigo_ibge`. -/
def Municipality.get_ibge_code (m : Municipality) : String := m.codigo_ibge

/-- Region record nested in a state (`struct StateRegion`). -/
structure StateRegion where
  id : Int
  sigla : String
  nome : String
deriving DecidableEq, Repr

/-- `StateRegion::get_sigla` returns `&self.sigla`. -/
def StateRegion.get_sigla (r : StateRegion) : String := r.sigla

/-- `StateRegion::get_name` returns `&self.nome`. -/
def StateRegion.get_name (r : StateRegion) : String := r.nome

/-- State record (`struct State`). -/
structure State where
  id : Int
  sigla : String
  nome : String
  regiao : StateRegion
deriving DecidableEq, Repr

/-- `State::get_sigla` returns `&self.sigla`. -/
def State.get_sigla (s : State) : String := s.sigla

/-- `State::get_name` returns `&self.nome`. -/
def State.get_name (s : State) : String := s.nome

/-- `State::get_region` returns `&self.regiao`. -/
def State.get_region (s : State) : StateRegion := s.regiao

/-- `enum MunicipalitiesProvider`: the closed set of data providers. -/
inductive MunicipalitiesProvider
  | DadosAbertos
  | Gov
  | Wikipedia
deriving DecidableEq, Repr

/-- `MunicipalitiesProvider::to_string`: variant to wire token. -/
def MunicipalitiesProvider.to_string : MunicipalitiesProvider → String
  | .DadosAbertos => "dados-abertos-br"
  | .Gov => "gov"
  | .Wikipedia => "wikipedia"

/-- `Vec::<&str>::join(",")`: comma-join a list of strings. -/
def joinTokens : List String → String
  | [] => ""
  | [t] => t
  | t :: ts => t ++ "," ++ joinTokens ts

/-- The `providers` query value built in `get_municipalities_request`:
`Some(providers)` maps each provider through `to_string` and joins with a
comma; `None` yields the empty string. -/
def providersParam : Option (List MunicipalitiesProvider) → String
  | some providers => joinTokens (providers.map MunicipalitiesProvider.to_string)
  | none => ""

/-- An HTTP response as `reqwest` delivers it: a status code, and the body
the caller can read with `.text()`. -/
structure Response where
  status : Nat
  body : String
deriving DecidableEq, Repr

/-- Result of `reqwest::get(url).await`: either a response, or a lower-level
transport failure carrying its cause. -/
inductive HttpResult
  | ok (r : Response)
  | err (cause : String)
deriving DecidableEq, Repr

/-- The network, seen by the pure embedding: what `reqwest::get` returns for
each URL during this call. -/
def World : Type := String → HttpResult

/-- Modelled from the spec: `crate::error::Error` is not under `src/`; the
spec's error taxonomy gives a transport-failure variant wrapping the
underlying cause and an application-failure variant carrying the status
(and body text).  The spec's third condition, deserialization failure, is
not a variant the code ever constructs (the code unwraps instead), so it
is not part of the value-level `Error` type here. -/
inductive Error
  | transportFailure (cause : String)
  | applicationFailure (status : Nat) (body : String)
deriving DecidableEq, Repr

/-- Modelled from the spec: `Error::from_response` (in `crate::error`, not
under `src/`) inspects the status; success passes the response through
unchanged, failure yields an application error carrying status and body. -/
def Error.from_response (r : Response) : Except Error Response :=
  if 200 ≤ r.status ∧ r.status < 300 then Except.ok r
  else Except.error (Error.applicationFailure r.status r.body)

/-- Modelled from the spec: `Error::from_error` (in `crate::error`, not
under `src/`) wraps a transport-level cause. -/
def Error.from_error (cause : String) : Error := Error.transportFailure cause

/-- Modelled from the spec: `BRASIL_API_URL` (in `crate::spec`, not under
`src/`) is the fixed default base URL the public functions bind to. -/
def BRASIL_API_URL : String := "https://brasilapi.com.br"

/-- `struct IbgeService`: holds the base URL. -/
structure IbgeService where
  base_url : String

/-- `IbgeService::new`. -/
def IbgeService.new (base_url : String) : IbgeService := ⟨base_url⟩

/-- The URL built by `get_municipalities_request`:
`format!("{}/api/ibge/municipios/v1/{}?providers={}", base, uf, providers)`. -/
def IbgeService.municipalities_url (s : IbgeService) (uf : String)
    (providers : Option (List MunicipalitiesProvider)) : String :=
  s.base_url ++ "/api/ibge/municipios/v1/" ++ uf ++ "?providers=" ++
    providersParam providers

/-- The URL built by `get_all_states_request`:
`format!("{}/api/ibge/uf/v1", base)`. -/
def IbgeService.states_url (s : IbgeService) : String :=
  s.base_url ++ "/api/ibge/uf/v1"

/-- The URL built by `get_state_request`:
`format!("{}/api/ibge/uf/v1/{}", base, code)`. -/
def IbgeService.state_url (s : IbgeService) (code : String) : String :=
  s.base_url ++ "/api/ibge/uf/v1/" ++ code

/-- `IbgeService::get_municipalities_request`: build the URL, GET it, and
route the outcome through the error mapper. -/
def IbgeService.get_municipalities_request (s : IbgeService) (world : World)
    (uf : String) (providers : Option (List MunicipalitiesProvider)) :
    Except Error Response :=
  match world (s.municipalities_url uf providers) with
  | HttpResult.ok response => Error.from_response response
  | HttpResult.err e => Except.error (Error.from_error e)

/-- `IbgeService::get_all_states_request`. -/
def IbgeService.get_all_states_request (s : IbgeService) (world : World) :
    Except Error Response :=
  match world s.states_url with
  | HttpResult.ok response => Error.from_response response
  | HttpResult.err e => Except.error (Error.from_error e)

/-- `IbgeService::get_state_request`. -/
def IbgeService.get_state_request (s : IbgeService) (world : World)
    (code : String) : Except Error Response :=
  match world (s.state_url code) with
  | HttpResult.ok response => Error.from_response response
  | HttpResult.err e => Except.error (Error.from_error e)

/-- Observable outcome of a public query function: a successful value, an
`Error` returned as the `Err` result, or an abort of the whole call by a
failed `.unwrap()` (a Rust panic). -/
inductive CallResult (α : Type)
  | ok (a : α)
  | err (e : Error)
  | panicked
deriving DecidableEq, Repr

/-- `get_municipalities`: build a service on the fixed base URL, await the
request (propagating its error with `?`), read the body, and deserialize it
with `serde_json::from_str(..).unwrap()` — a parse failure panics. -/
def get_municipalities (world : World)
    (parse : String → Option (List Municipality))
    (uf : String) (providers : Option (List MunicipalitiesProvider)) :
    CallResult (List Municipality) :=
  let ibge_service := IbgeService.new BRASIL_API_URL
  match ibge_service.get_municipalities_request world uf providers with
  | Except.error e => CallResult.err e
  | Except.ok response =>
    match parse response.body with
    | some municipalities => CallResult.ok municipalities
    | none => CallResult.panicked

/-- Rust `char::to_ascii_lowercase`: fold only the ASCII range `A`-`Z`. -/
def asciiLower (c : Char) : Char :=
  if 'A' ≤ c ∧ c ≤ 'Z' then Char.ofNat (c.toNat + 32) else c

/-- Rust `str::eq_ignore_ascii_case`. -/
def eq_ignore_ascii_case (a b : String) : Bool :=
  a.data.map asciiLower == b.data.map asciiLower

/-- `find_municipality_by_state_and_name`: fetch the municipality list and
scan for the first case-insensitive name match. -/
def find_municipality_by_state_and_name (world : World)
    (parse : String → Option (List Municipality))
    (uf city_name : String)
    (providers : Option (List MunicipalitiesProvider)) :
    CallResult (Option Municipality) :=
  match get_municipalities world parse uf providers with
  | CallResult.ok municipalities =>
    CallResult.ok (municipalities.find?
      (fun municipality => eq_ignore_ascii_case municipality.get_name city_name))
  | CallResult.err e => CallResult.err e
  | CallResult.panicked => CallResult.panicked

/-- `get_all_states`: fetch `{base}/api/ibge/uf/v1`, deserialize the body
into a list of states, panicking on a parse failure. -/
def get_all_states (world : World) (parse : String → Option (List State)) :
    CallResult (List State) :=
  let ibge_service := IbgeService.new BRASIL_API_URL
  match ibge_service.get_all_states_request world with
  | Except.error e => CallResult.err e
  | Except.ok response =>
    match parse response.body with
    | some states => CallResult.ok states
    | none => CallResult.panicked

/-- `get_state`: fetch `{base}/api/ibge/uf/v1/{code}`, deserialize the body
into a single state, panicking on a parse failure. -/
def get_state (world : World) (parse : String → Option State)
    (code : String) : CallResult State :=
  let ibge_service := IbgeService.new BRASIL_API_URL
  match ibge_service.get_state_request world code with
  | Except.error e => CallResult.err e
  | Except.ok response =>
    match parse response.body with
    | some state => CallResult.ok state
    | none => CallResult.panicked

/-- The read-only accessor surface `impl State` declares in the source:
exactly `get_sigla`, `get_name` and `get_region` — there is no getter for
the `id` field. -/
inductive StateAccessor
  | sigla
  | name
  | region
deriving DecidableEq, Repr

/-- Semantics of each declared `State` accessor; the result type sums the
value types an accessor of `State` could return (a string field, the
region field, or the integer `id` field — the last is never produced). -/
def StateAccessor.apply : StateAccessor → State → String ⊕ StateRegion ⊕ Int
  | StateAccessor.sigla, s => Sum.inl s.get_sigla
  | StateAccessor.name, s => Sum.inl s.get_name
  | StateAccessor.region, s => Sum.inr (Sum.inl s.get_region)

/-- The read-only accessor surface `impl StateRegion` declares in the
source: exactly `get_sigla` and `get_name` — no getter for `id`. -/
inductive StateRegionAccessor
  | sigla
  | name
deriving DecidableEq, Repr

/-- Semantics of each declared `StateRegion` accessor. -/
def StateRegionAccessor.apply : StateRegionAccessor → StateRegion → String ⊕ Int
  | StateRegionAccessor.sigla, r => Sum.inl r.get_sigla
  | StateRegionAccessor.name, r => Sum.inl r.get_name

/-! ## Theorems -/

/-- C3: for every base URL, state code and provider list, the municipalities
request URL is `{base}/api/ibge/municipios/v1/{uf}?providers={joined}`,
where the join maps `DadosAbertos`, `Gov`, `Wikipedia` to their tokens and
comma-joins them in input order (in particular `[DadosAbertos, Wikipedia]`
yields `"dados-abertos-br,wikipedia"`), and an empty or absent provider
list still produces the `providers=` parameter, with an empty value. -/
theorem municipalities_url_spec :
    (∀ (base uf : String) (providers : Option (List MunicipalitiesProvider)),
      (IbgeService.new base).municipalities_url uf providers =
        base ++ "/api/ibge/municipios/v1/" ++ uf ++ "?providers=" ++
          providersParam providers) ∧
    (∀ p : MunicipalitiesProvider, providersParam (some [p]) = p.to_string) ∧
    (∀ (p q : MunicipalitiesProvider) (rest : List MunicipalitiesProvider),
      providersParam (some (p :: q :: rest)) =
        p.to_string ++ "," ++ providersParam (some (q :: rest))) ∧
    providersParam (some [MunicipalitiesProvider.DadosAbertos,
      MunicipalitiesProvider.Wikipedia]) = "dados-abertos-br,wikipedia" ∧
    providersParam none = "" ∧
    providersParam (some []) = "" := by
  refine ⟨fun base uf providers => rfl, fun p => ?_, fun p q rest => ?_, ?_, rfl, ?_⟩
  · simp [providersParam, joinTokens]
  · simp [providersParam, joinTokens]
  · decide
  · simp [providersParam, joinTokens]

/-- C6 counterexample: the claim asserts an accessor for each field, but at
a concrete state (id 7) and region (id 3) no declared accessor of `State`
or `StateRegion` returns the value of the `id` field — the impl blocks
define no `id` getter. -/
theorem id_fields_lack_accessors :
    (¬ ∃ a : StateAccessor,
      StateAccessor.apply a ⟨7, "SP", "X", ⟨3, "SE", "Y"⟩⟩ = Sum.inr (Sum.inr 7)) ∧
    (¬ ∃ a : StateRegionAccessor,
      StateRegionAccessor.apply a ⟨3, "SE", "Y"⟩ = Sum.inr 3) := by
  constructor
  · intro ⟨a, h⟩
    cases a <;> simp [StateAccessor.apply] at h
  · intro ⟨a, h⟩
    cases a <;> simp [StateRegionAccessor.apply] at h

/-- C6 amended: every accessor the domain record types do declare
(`get_name`/`get_ibge_code` on `Municipality`, `get_sigla`/`get_name`/
`get_region` on `State`, `get_sigla`/`get_name` on `StateRegion`) returns
exactly the value of the corresponding field; the `id` fields of `State`
and `StateRegion` have no accessor, and the types provide no behavior
beyond equality and field access. -/
theorem accessors_return_fields :
    (∀ m : Municipality, m.get_name = m.nome ∧ m.get_ibge_code = m.codigo_ibge) ∧
    (∀ s : State, s.get_sigla = s.sigla ∧ s.get_name = s.nome ∧
      s.get_region = s.regiao) ∧
    (∀ r : StateRegion, r.get_sigla = r.sigla ∧ r.get_name = r.nome) :=
  ⟨fun _ => ⟨rfl, rfl⟩, fun _ => ⟨rfl, rfl, rfl⟩, fun _ => ⟨rfl, rfl⟩⟩

/-- C8: the `uf` and `code` arguments are interpolated verbatim into the
URL, which is the literal concatenation of base, fixed path and argument
(no escaping or percent-encoding); concretely, an argument holding `/`,
`?` and `&` passes through unchanged and so lands in the path/query. -/
theorem url_interpolation_verbatim :
    (∀ (base uf : String) (providers : Option (List MunicipalitiesProvider)),
      (IbgeService.new base).municipalities_url uf providers =
        base ++ "/api/ibge/municipios/v1/" ++ (uf ++
          ("?providers=" ++ providersParam providers))) ∧
    (∀ base code : String,
      (IbgeService.new base).state_url code =
        base ++ "/api/ibge/uf/v1/" ++ code) ∧
    (IbgeService.new "B").state_url "SP/x?y&z" = "B/api/ibge/uf/v1/SP/x?y&z" ∧
    (IbgeService.new "B").municipalities_url "SP/x?y&z" none =
      "B/api/ibge/municipios/v1/SP/x?y&z?providers=" := by
  refine ⟨fun base uf providers => ?_, fun base code => rfl, ?_, ?_⟩
  · simp [IbgeService.municipalities_url, IbgeService.new, String.append_assoc]
  · rfl
  · rfl

/-- C5: each of the three service operations routes a received response
through the shared mapper `Error.from_response` (and wraps a transport
failure via `Error.from_error`); the mapper passes a success-status
response through unchanged and turns a failure status into an
application error carrying the status (and body), and the transport
wrapper produces the transport-failure variant. -/
theorem service_ops_route_through_mapper :
    (∀ (s : IbgeService) (world : World) (uf : String)
        (providers : Option (List MunicipalitiesProvider)),
      s.get_municipalities_request world uf providers =
        match world (s.municipalities_url uf providers) with
        | HttpResult.ok r => Error.from_response r
        | HttpResult.err e => Except.error (Error.from_error e)) ∧
    (∀ (s : IbgeService) (world : World),
      s.get_all_states_request world =
        match world s.states_url with
        | HttpResult.ok r => Error.from_response r
        | HttpResult.err e => Except.error (Error.from_error e)) ∧
    (∀ (s : IbgeService) (world : World) (code : String),
      s.get_state_request world code =
        match world (s.state_url code) with
        | HttpResult.ok r => Error.from_response r
        | HttpResult.err e => Except.error (Error.from_error e)) ∧
    (∀ r : Response, Error.from_response r =
      if 200 ≤ r.status ∧ r.status < 300 then Except.ok r
      else Except.error (Error.applicationFailure r.status r.body)) ∧
    (∀ cause : String, Error.from_error cause = Error.transportFailure cause) :=
  ⟨fun _ _ _ _ => rfl, fun _ _ => rfl, fun _ _ _ => rfl, fun _ => rfl, fun _ => rfl⟩

/-- C2: when the upstream answers the built URL with a non-success status
(e.g. an unknown UF or state code), `get_municipalities` and `get_state`
both return the application-failure variant as their `Err` result — not a
panic and not a successful empty value. -/
theorem non_success_status_yields_application_failure
    (world : World) (pm : String → Option (List Municipality))
    (ps : String → Option State)
    (uf code : String) (providers : Option (List MunicipalitiesProvider))
    (status : Nat) (body_m body_s : String)
    (hm : world ((IbgeService.new BRASIL_API_URL).municipalities_url uf providers)
      = HttpResult.ok ⟨status, body_m⟩)
    (hs : world ((IbgeService.new BRASIL_API_URL).state_url code)
      = HttpResult.ok ⟨status, body_s⟩)
    (hfail : ¬ (200 ≤ status ∧ status < 300)) :
    get_municipalities world pm uf providers =
      CallResult.err (Error.applicationFailure status body_m) ∧
    get_state world ps code =
      CallResult.err (Error.applicationFailure status body_s) := by
  constructor
  · simp [get_municipalities, IbgeService.get_municipalities_request, hm,
      Error.from_response, hfail]
  · simp [get_state, IbgeService.get_state_request, hs,
      Error.from_response, hfail]

/-- Witness for C2 at a concrete 404 world. -/
theorem non_success_status_yields_application_failure_witness :
    get_municipalities (fun _ => HttpResult.ok ⟨404, "nf"⟩) (fun _ => none)
      "XX" none = CallResult.err (Error.applicationFailure 404 "nf") ∧
    get_state (fun _ => HttpResult.ok ⟨404, "nf"⟩) (fun _ => none) "XX" =
      CallResult.err (Error.applicationFailure 404 "nf") :=
  non_success_status_yields_application_failure
    (fun _ => HttpResult.ok ⟨404, "nf"⟩) (fun _ => none) (fun _ => none)
    "XX" "XX" none 404 "nf" "nf" rfl rfl (by decide)

/-- C1 counterexample: at a concrete world whose response is a 200 with a
body the parser rejects, `get_municipalities` aborts the call (the
`.unwrap()` panic), and in particular does not return the failure as its
`Err` result as the claim states. -/
theorem deserialization_failure_not_err_result :
    get_municipalities (fun _ => HttpResult.ok ⟨200, "not json"⟩)
      (fun _ => none) "SP" none = CallResult.panicked ∧
    ¬ ∃ e : Error, get_municipalities (fun _ => HttpResult.ok ⟨200, "not json"⟩)
      (fun _ => none) "SP" none = CallResult.err e := by
  constructor
  · rfl
  · intro ⟨e, he⟩
    rw [show get_municipalities (fun _ => HttpResult.ok ⟨200, "not json"⟩)
      (fun _ => none) "SP" none = CallResult.panicked from rfl] at he
    exact CallResult.noConfusion he

/-- C1 amended: when the HTTP request succeeds with a success status but
the body cannot be parsed, each public query function aborts the whole
call by panicking (`.unwrap()` on the failed parse) — a fatal failure
signal that yields neither a successful value, nor a partial/default
value, nor an `Err` return. -/
theorem deserialization_failure_aborts (world : World)
    (pm : String → Option (List Municipality))
    (psl : String → Option (List State)) (ps : String → Option State)
    (uf code : String) (providers : Option (List MunicipalitiesProvider))
    (rm rs rst : Response)
    (hm : world ((IbgeService.new BRASIL_API_URL).municipalities_url uf providers)
      = HttpResult.ok rm)
    (hm2 : 200 ≤ rm.status ∧ rm.status < 300) (hmp : pm rm.body = none)
    (hs : world (IbgeService.new BRASIL_API_URL).states_url = HttpResult.ok rs)
    (hs2 : 200 ≤ rs.status ∧ rs.status < 300) (hsp : psl rs.body = none)
    (hst : world ((IbgeService.new BRASIL_API_URL).state_url code)
      = HttpResult.ok rst)
    (hst2 : 200 ≤ rst.status ∧ rst.status < 300) (hstp : ps rst.body = none) :
    get_municipalities world pm uf providers = CallResult.panicked ∧
    get_all_states world psl = CallResult.panicked ∧
    get_state world ps code = CallResult.panicked := by
  refine ⟨?_, ?_, ?_⟩
  · simp [get_municipalities, IbgeService.get_municipalities_request, hm,
      Error.from_response, hm2, hmp]
  · simp [get_all_states, IbgeService.get_all_states_request, hs,
      Error.from_response, hs2, hsp]
  · simp [get_state, IbgeService.get_state_request, hst,
      Error.from_response, hst2, hstp]

/-- Witness for the amended C1 at a concrete 200 world with a failing parse. -/
theorem deserialization_failure_aborts_witness :
    get_municipalities (fun _ => HttpResult.ok ⟨200, "x"⟩) (fun _ => none)
      "SP" none = CallResult.panicked ∧
    get_all_states (fun _ => HttpResult.ok ⟨200, "x"⟩) (fun _ => none)
      = CallResult.panicked ∧
    get_state (fun _ => HttpResult.ok ⟨200, "x"⟩) (fun _ => none) "SP"
      = CallResult.panicked :=
  deserialization_failure_aborts (fun _ => HttpResult.ok ⟨200, "x"⟩)
    (fun _ => none) (fun _ => none) (fun _ => none) "SP" "SP" none
    ⟨200, "x"⟩ ⟨200, "x"⟩ ⟨200, "x"⟩
    rfl (by decide) rfl rfl (by decide) rfl rfl (by decide) rfl

/-- C4: when the municipality fetch succeeds with list `ms`,
`find_municipality_by_state_and_name` returns `Ok` of the first
case-insensitive name match in `ms` (`List.find?` is the first-match
scan); if some element matches it returns that present match, and if no
element matches it returns `Ok none` — absence is a success, not an error. -/
theorem find_municipality_spec (world : World)
    (pm : String → Option (List Municipality))
    (uf city_name : String) (providers : Option (List MunicipalitiesProvider))
    (ms : List Municipality)
    (h : get_municipalities world pm uf providers = CallResult.ok ms) :
    find_municipality_by_state_and_name world pm uf city_name providers =
      CallResult.ok (ms.find?
        (fun m => eq_ignore_ascii_case m.get_name city_name)) ∧
    ((∃ m ∈ ms, eq_ignore_ascii_case m.get_name city_name = true) →
      ∃ m, eq_ignore_ascii_case m.get_name city_name = true ∧
        find_municipality_by_state_and_name world pm uf city_name providers =
          CallResult.ok (some m)) ∧
    ((∀ m ∈ ms, eq_ignore_ascii_case m.get_name city_name = false) →
      find_municipality_by_state_and_name world pm uf city_name providers =
        CallResult.ok none) := by
  have hmain : find_municipality_by_state_and_name world pm uf city_name providers =
      CallResult.ok (ms.find?
        (fun m => eq_ignore_ascii_case m.get_name city_name)) := by
    simp [find_municipality_by_state_and_name, h]
  refine ⟨hmain, ?_, ?_⟩
  · intro hex
    have : (ms.find? (fun m => eq_ignore_ascii_case m.get_name city_name)).isSome := by
      rw [List.find?_isSome]
      obtain ⟨m, hmem, hm⟩ := hex
      exact ⟨m, hmem, hm⟩
    obtain ⟨m, hm⟩ := Option.isSome_iff_exists.mp this
    have hp := List.find?_some hm
    refine ⟨m, hp, ?_⟩
    rw [hmain, hm]
  · intro hall
    have : ms.find? (fun m => eq_ignore_ascii_case m.get_name city_name) = none := by
      rw [List.find?_eq_none]
      intro m hmem
      simp [hall m hmem]
    rw [hmain, this]

/-- Witness for C4: a concrete fetched list where `"sao paulo"` matches
`"Sao Paulo"` case-insensitively and an absent name yields `Ok none`. -/
theorem find_municipality_spec_witness :
    find_municipality_by_state_and_name
      (fun _ => HttpResult.ok ⟨200, "b"⟩)
      (fun _ => some [⟨"Sao Paulo", "3550308"⟩]) "SP" "sao paulo" none =
      CallResult.ok (some ⟨"Sao Paulo", "3550308"⟩) := by
  have h := (find_municipality_spec (fun _ => HttpResult.ok ⟨200, "b"⟩)
    (fun _ => some [⟨"Sao Paulo", "3550308"⟩]) "SP" "sao paulo" none
    [⟨"Sao Paulo", "3550308"⟩] (by decide)).1
  rw [h]
  decide

/-- C7: `get_state` is deterministic with respect to the upstream — it
consults the network at exactly one URL, so two calls against worlds that
agree on that URL (an unchanged upstream) return equal values; the
function keeps no call-to-call state of its own. -/
theorem get_state_deterministic (w1 w2 : World) (p : String → Option State)
    (code : String)
    (h : w1 ((IbgeService.new BRASIL_API_URL).state_url code) =
      w2 ((IbgeService.new BRASIL_API_URL).state_url code)) :
    get_state w1 p code = get_state w2 p code := by
  simp [get_state, IbgeService.get_state_request, h]

/-- Witness for C7: two sequential calls against the same concrete world
return equal values. -/
theorem get_state_deterministic_witness :
    get_state (fun _ => HttpResult.ok ⟨200, "sp"⟩)
      (fun _ => some ⟨35, "SP", "Sao Paulo", ⟨3, "SE", "Sudeste"⟩⟩) "SP" =
    get_state (fun _ => HttpResult.ok ⟨200, "sp"⟩)
      (fun _ => some ⟨35, "SP", "Sao Paulo", ⟨3, "SE", "Sudeste"⟩⟩) "SP" :=
  get_state_deterministic (fun _ => HttpResult.ok ⟨200, "sp"⟩)
    (fun _ => HttpResult.ok ⟨200, "sp"⟩)
    (fun _ => some ⟨35, "SP", "Sao Paulo", ⟨3, "SE", "Sudeste"⟩⟩) "SP" rfl

/-- C9: when the request succeeds and the body parses, `get_municipalities`
and `get_all_states` return exactly the parsed sequence, unmodified — same
elements, same order, no filtering, deduplication or sorting. -/
theorem results_returned_unmodified (world : World)
    (pm : String → Option (List Municipality))
    (psl : String → Option (List State))
    (uf : String) (providers : Option (List MunicipalitiesProvider))
    (rm rs : Response) (xs : List Municipality) (ys : List State)
    (hm : world ((IbgeService.new BRASIL_API_URL).municipalities_url uf providers)
      = HttpResult.ok rm)
    (hm2 : 200 ≤ rm.status ∧ rm.status < 300) (hmp : pm rm.body = some xs)
    (hs : world (IbgeService.new BRASIL_API_URL).states_url = HttpResult.ok rs)
    (hs2 : 200 ≤ rs.status ∧ rs.status < 300) (hsp : psl rs.body = some ys) :
    get_municipalities world pm uf providers = CallResult.ok xs ∧
    get_all_states world psl = CallResult.ok ys := by
  constructor
  · simp [get_municipalities, IbgeService.get_municipalities_request, hm,
      Error.from_response, hm2, hmp]
  · simp [get_all_states, IbgeService.get_all_states_request, hs,
      Error.from_response, hs2, hsp]

/-- Witness for C9 at a concrete world and parser. -/
theorem results_returned_unmodified_witness :
    get_municipalities (fun _ => HttpResult.ok ⟨200, "b"⟩)
      (fun _ => some [⟨"A", "1"⟩, ⟨"B", "2"⟩]) "SP" none =
      CallResult.ok [⟨"A", "1"⟩, ⟨"B", "2"⟩] ∧
    get_all_states (fun _ => HttpResult.ok ⟨200, "b"⟩)
      (fun _ => some []) = CallResult.ok [] :=
  results_returned_unmodified (fun _ => HttpResult.ok ⟨200, "b"⟩)
    (fun _ => some [⟨"A", "1"⟩, ⟨"B", "2"⟩]) (fun _ => some [])
    "SP" none ⟨200, "b"⟩ ⟨200, "b"⟩ [⟨"A", "1"⟩, ⟨"B", "2"⟩] []
    rfl (by decide) rfl rfl (by decide) rfl

/-! ### Helpers for the provider-token injectivity claim -/

/-- Every provider wire token is a nonempty string. -/
lemma tok_data_ne_nil (p : MunicipalitiesProvider) : p.to_string.data ≠ [] := by
  cases p <;> decide

/-- The three wire tokens have pairwise distinct first characters, so the
first character of a token determines the provider. -/
lemma tok_head_inj (p q : MunicipalitiesProvider)
    (h : p.to_string.data.head? = q.to_string.data.head?) : p = q := by
  cases p <;> cases q <;> revert h <;> decide

/-- `providersParam` on a singleton list is the bare token. -/
lemma providersParam_single (p : MunicipalitiesProvider) :
    providersParam (some [p]) = p.to_string := rfl

/-- `providersParam` on a list of length at least two peels off the head
token followed by a comma. -/
lemma providersParam_cons_cons (p q : MunicipalitiesProvider)
    (r : List MunicipalitiesProvider) :
    providersParam (some (p :: q :: r)) =
      p.to_string ++ "," ++ providersParam (some (q :: r)) := rfl

/-- Head of an append whose first part is nonempty. -/
lemma head?_append_of_ne_nil (a b : List Char) (h : a ≠ []) :
    (a ++ b).head? = a.head? := by
  cases a with
  | nil => exact absurd rfl h
  | cons x xs => rfl

/-- The first character of a joined nonempty provider list is the first
character of its head's token. -/
lemma providersParam_head (p : MunicipalitiesProvider)
    (t : List MunicipalitiesProvider) :
    (providersParam (some (p :: t))).data.head? = p.to_string.data.head? := by
  cases t with
  | nil => rw [providersParam_single]
  | cons q r =>
    rw [providersParam_cons_cons, String.data_append, String.data_append,
      head?_append_of_ne_nil, head?_append_of_ne_nil]
    · exact tok_data_ne_nil p
    · intro hnil
      exact tok_data_ne_nil p (List.append_eq_nil.mp hnil).1

/-- Comma-joining provider tokens is injective on nonempty lists (no token
contains a comma and tokens are distinguished by their first character). -/
lemma joinProviders_inj : ∀ l1 l2 : List MunicipalitiesProvider,
    providersParam (some l1) = providersParam (some l2) → l1 ≠ [] → l1 = l2 := by
  intro l1
  induction l1 with
  | nil => intro l2 h hne; exact absurd rfl hne
  | cons p t ih =>
    intro l2 h hne
    cases l2 with
    | nil =>
      exfalso
      have h1 := providersParam_head p t
      rw [h] at h1
      revert h1
      cases p <;> decide
    | cons q t2 =>
      have hpq : p = q := by
        apply tok_head_inj
        rw [← providersParam_head p t, ← providersParam_head q t2, h]
      subst hpq
      cases t with
      | nil =>
        cases t2 with
        | nil => rfl
        | cons b u =>
          exfalso
          rw [providersParam_single, providersParam_cons_cons] at h
          have hd := congrArg String.data h
          rw [String.data_append, String.data_append, List.append_assoc] at hd
          have hlen := congrArg List.length hd
          simp [List.length_append] at hlen
      | cons a s =>
        cases t2 with
        | nil =>
          exfalso
          rw [providersParam_cons_cons, providersParam_single] at h
          have hd := congrArg String.data h
          rw [String.data_append, String.data_append, List.append_assoc] at hd
          have hlen := congrArg List.length hd
          simp [List.length_append] at hlen
        | cons b u =>
          rw [providersParam_cons_cons, providersParam_cons_cons] at h
          have hd := congrArg String.data h
          rw [String.data_append, String.data_append, String.data_append,
            String.data_append] at hd
          have htail := List.append_cancel_left hd
          have htl : providersParam (some (a :: s)) = providersParam (some (b :: u)) :=
            String.ext htail
          rw [ih (b :: u) htl (List.cons_ne_nil a s)]

/-- C10: `MunicipalitiesProvider.to_string` is a total mapping sending the
three variants to exactly the three tokens `"dados-abertos-br"`, `"gov"`,
`"wikipedia"`; it is injective, and a non-empty comma-joined providers
query string uniquely determines the provider list that produced it. -/
theorem provider_token_mapping_injective :
    (MunicipalitiesProvider.to_string MunicipalitiesProvider.DadosAbertos =
        "dados-abertos-br" ∧
      MunicipalitiesProvider.to_string MunicipalitiesProvider.Gov = "gov" ∧
      MunicipalitiesProvider.to_string MunicipalitiesProvider.Wikipedia =
        "wikipedia") ∧
    (∀ p q : MunicipalitiesProvider, p.to_string = q.to_string → p = q) ∧
    (∀ l1 l2 : List MunicipalitiesProvider,
      providersParam (some l1) ≠ "" →
      providersParam (some l1) = providersParam (some l2) → l1 = l2) := by
  refine ⟨⟨rfl, rfl, rfl⟩, ?_, ?_⟩
  · intro p q h
    cases p <;> cases q <;> revert h <;> decide
  · intro l1 l2 hne h
    apply joinProviders_inj l1 l2 h
    intro hnil
    subst hnil
    exact hne rfl

/-- Witness for C10: the joined string of a concrete two-provider list is
nonempty and determines the list. -/
theorem provider_token_mapping_injective_witness :
    ([MunicipalitiesProvider.DadosAbertos, MunicipalitiesProvider.Wikipedia] :
        List MunicipalitiesProvider) =
      [MunicipalitiesProvider.DadosAbertos, MunicipalitiesProvider.Wikipedia] :=
  provider_token_mapping_injective.2.2
    [MunicipalitiesProvider.DadosAbertos, MunicipalitiesProvider.Wikipedia]
    [MunicipalitiesProvider.DadosAbertos, MunicipalitiesProvider.Wikipedia]
    (by decide) rfl

end BrasilApi
